import Mathlib

/-!
# Verification of the like/playlist consistency core of the music-app backend

Shallow embedding of the cross-aggregate consistency engine:

* `SongService` (`toggleLikeSong`, `likeSong`, `unlikeSong`),
* `PlaylistService` (`createDefaultPlaylistsForUser`, `addToLikedSongs`,
  `removeFromLikedSongs`, `addToRecentlyPlayed`, `validatePlaylistOwnership`),
* the `DELETE /:id/songs/:songId` route handler,
* the `songSchema.pre("save")` middleware.

MongoDB documents are modelled as association lists keyed by numeric ids
(ObjectIds are opaque identifiers compared by string value in the source, so
naturals are a faithful carrier).  Stateful operations take and return an
explicit database value together with an `Except String` result whose error
strings are the exact messages thrown by the source.
-/

namespace MusicApp

abbrev UserId := Nat
abbrev SongId := Nat
abbrev PlaylistId := Nat

/-- `playlistType` enum of `playlistSchema` (Playlist.ts). -/
inductive PlaylistType
  | custom
  | liked
  | recently_played
  | favorites
deriving DecidableEq

/-- The fields of a Song document that the consistency core reads or writes
(Song.ts): `duration`, `likedBy`, `likesCount`.  `likesCount` is an `Int`
because `$inc: -1` updates are unconditional in the source. -/
structure SongRec where
  duration : Int
  likedBy : List UserId
  likesCount : Int
deriving DecidableEq

/-- The fields of a Playlist document the core touches (Playlist.ts). -/
structure PlaylistRec where
  name : String
  owner : UserId
  songs : List SongId
  totalDuration : Int
  isDefault : Bool
  playlistType : PlaylistType
deriving DecidableEq

/-- The MongoDB state seen by the services: the `users`, `songs` and
`playlists` collections (the latter two as id-keyed association lists) plus a
fresh-id counter for `Playlist.create`. -/
structure DB where
  users : List UserId
  songs : List (SongId × SongRec)
  playlists : List (PlaylistId × PlaylistRec)
  nextPlaylistId : PlaylistId
deriving DecidableEq

/-- `Song.findById(id)`. -/
def DB.findSong (db : DB) (id : SongId) : Option SongRec :=
  (db.songs.find? (fun p => decide (p.1 = id))).map Prod.snd

/-- `song.save()` / `Song.findByIdAndUpdate` target selection: replace the
document stored under `id` by `s` (no-op when the id is absent). -/
def DB.saveSong (db : DB) (id : SongId) (s : SongRec) : DB :=
  { db with songs := db.songs.map (fun p => if p.1 = id then (id, s) else p) }

/-- `Song.findByIdAndUpdate(id, upd)`: apply the update operators `upd` to the
current stored document (no-op when the id is absent; the callers in
`toggleLikeSong` ignore the returned document). -/
def DB.adjustSong (db : DB) (id : SongId) (f : SongRec → SongRec) : DB :=
  { db with songs := db.songs.map (fun p => if p.1 = id then (p.1, f p.2) else p) }

/-- `Playlist.findById(id)`. -/
def DB.findPlaylist (db : DB) (id : PlaylistId) : Option PlaylistRec :=
  (db.playlists.find? (fun p => decide (p.1 = id))).map Prod.snd

/-- `Playlist.findOne({ owner, playlistType })`: first matching document. -/
def DB.findPlaylistByOwnerType (db : DB) (owner : UserId) (ty : PlaylistType) :
    Option (PlaylistId × PlaylistRec) :=
  db.playlists.find? (fun p => decide (p.2.owner = owner ∧ p.2.playlistType = ty))

/-- `playlist.save()`. -/
def DB.savePlaylist (db : DB) (id : PlaylistId) (pl : PlaylistRec) : DB :=
  { db with playlists := db.playlists.map (fun p => if p.1 = id then (id, pl) else p) }

/-- `Playlist.create(...)` with a fresh id. -/
def DB.createPlaylist (db : DB) (pl : PlaylistRec) : DB :=
  { db with
      playlists := db.playlists ++ [(db.nextPlaylistId, pl)]
      nextPlaylistId := db.nextPlaylistId + 1 }

/-- `songSchema.pre("save")` middleware (Song.ts lines 121-123): on every
document save, `likesCount` is set to `likedBy.length`. -/
def presaveSong (s : SongRec) : SongRec :=
  { s with likesCount := (s.likedBy.length : Int) }

/-! ## PlaylistService -/

/-- `PlaylistService.createDefaultPlaylistsForUser`: verify the user exists,
then create each of the two default playlists unless one of its type already
exists for this owner. -/
def createDefaultPlaylistsForUser (db : DB) (userId : UserId) :
    DB × Except String Unit :=
  if userId ∈ db.users then
    let db1 :=
      match db.findPlaylistByOwnerType userId .liked with
      | some _ => db
      | none =>
          db.createPlaylist
            { name := "Liked Songs", owner := userId, songs := [],
              totalDuration := 0, isDefault := true, playlistType := .liked }
    let db2 :=
      match db1.findPlaylistByOwnerType userId .recently_played with
      | some _ => db1
      | none =>
          db1.createPlaylist
            { name := "Recently Played", owner := userId, songs := [],
              totalDuration := 0, isDefault := true,
              playlistType := .recently_played }
    (db2, .ok ())
  else (db, .error "User not found")

/-- `PlaylistService.addToLikedSongs`: find the owner's "liked" playlist; if
the song is not yet in it, look the song up (for its duration), append it and
add the duration. -/
def addToLikedSongs (db : DB) (userId : UserId) (songId : SongId) :
    DB × Except String Unit :=
  match db.findPlaylistByOwnerType userId .liked with
  | none => (db, .error "Liked Songs playlist not found")
  | some (pid, pl) =>
      if songId ∈ pl.songs then (db, .ok ())
      else
        match db.findSong songId with
        | none => (db, .error "Song not found")
        | some song =>
            (db.savePlaylist pid
              { pl with
                  songs := pl.songs ++ [songId]
                  totalDuration := pl.totalDuration + song.duration },
             .ok ())

/-- `PlaylistService.removeFromLikedSongs`: if the song id is present, splice
out its first occurrence; the duration is subtracted (floored at zero by
`Math.max`) only when the song document still exists. -/
def removeFromLikedSongs (db : DB) (userId : UserId) (songId : SongId) :
    DB × Except String Unit :=
  match db.findPlaylistByOwnerType userId .liked with
  | none => (db, .error "Liked Songs playlist not found")
  | some (pid, pl) =>
      if songId ∈ pl.songs then
        let newTotal :=
          match db.findSong songId with
          | some song => max 0 (pl.totalDuration - song.duration)
          | none => pl.totalDuration
        (db.savePlaylist pid
          { pl with songs := pl.songs.erase songId, totalDuration := newTotal },
         .ok ())
      else (db, .ok ())

/-- `PlaylistService.addToRecentlyPlayed`: splice out an existing occurrence,
unshift the song id to the front, keep only the first 50 ids, then recompute
`totalDuration` from `Song.find({_id: {$in: songs}})` — a sum over the store
documents whose id is retained. -/
def addToRecentlyPlayed (db : DB) (userId : UserId) (songId : SongId) :
    DB × Except String Unit :=
  match db.findPlaylistByOwnerType userId .recently_played with
  | none => (db, .error "Recently Played playlist not found")
  | some (pid, pl) =>
      let songs1 := pl.songs.erase songId
      let songs2 := songId :: songs1
      let songs3 := if songs2.length > 50 then songs2.take 50 else songs2
      let newTotal :=
        ((db.songs.filter (fun p => decide (p.1 ∈ songs3))).map
          (fun p => p.2.duration)).sum
      (db.savePlaylist pid { pl with songs := songs3, totalDuration := newTotal },
       .ok ())

/-- `PlaylistService.validatePlaylistOwnership`. -/
def validatePlaylistOwnership (db : DB) (pid : PlaylistId) (userId : UserId) :
    Except String PlaylistRec :=
  match db.findPlaylist pid with
  | none => .error "Playlist not found"
  | some pl =>
      if pl.owner ≠ userId then
        .error "Access denied. You can only access your own playlists"
      else .ok pl

/-! ## SongService -/

/-- `SongService.likeSong`: fetch the song; fail when absent or already
liked; otherwise push the user onto `likedBy` and save (the pre-save hook
recomputes `likesCount`), then sync the liked playlist, rolling the song
mutation back on sync failure.  The rollback path rethrows `new Error()`,
i.e. an empty message. -/
def likeSong (db : DB) (userId : UserId) (songId : SongId) :
    DB × Except String SongRec :=
  match db.findSong songId with
  | none => (db, .error "Song not found")
  | some song =>
      if userId ∈ song.likedBy then (db, .error "Song is already liked")
      else
        let song1 := presaveSong { song with likedBy := song.likedBy ++ [userId] }
        let db1 := db.saveSong songId song1
        match addToLikedSongs db1 userId songId with
        | (db2, .ok _) => (db2, .ok song1)
        | (db2, .error _) =>
            let song2 :=
              presaveSong
                { song1 with
                    likedBy := song1.likedBy.filter (fun id => decide (id ≠ userId)) }
            (db2.saveSong songId song2, .error "")

/-- `SongService.unlikeSong`: fetch the song; fail when absent or not liked;
otherwise splice the user out of `likedBy` at its first index and save, then
sync the liked playlist, pushing the user back on sync failure. -/
def unlikeSong (db : DB) (userId : UserId) (songId : SongId) :
    DB × Except String SongRec :=
  match db.findSong songId with
  | none => (db, .error "Song not found")
  | some song =>
      if userId ∈ song.likedBy then
        let song1 := presaveSong { song with likedBy := song.likedBy.erase userId }
        let db1 := db.saveSong songId song1
        match removeFromLikedSongs db1 userId songId with
        | (db2, .ok _) => (db2, .ok song1)
        | (db2, .error e) =>
            let song2 := presaveSong { song1 with likedBy := song1.likedBy ++ [userId] }
            (db2.saveSong songId song2,
             .error ("Failed to sync with playlist: " ++ e))
      else (db, .error "Song is not liked")

/-- `SongService.toggleLikeSong`: a conditional `findOneAndUpdate` add
(`likedBy: {$ne: userId}`, `$push`/`$inc +1`) tried first; when it does not
match, a conditional remove (`likedBy: userId`, `$pull`/`$inc -1`); when
neither matches the song does not exist.  After each applied branch the liked
playlist is synced; on sync failure the inverse `findByIdAndUpdate` is issued
and the original playlist error is rethrown.  (`$pull` removes every matching
array entry; `$push` appends.) -/
def toggleLikeSong (db : DB) (userId : UserId) (songId : SongId) :
    DB × Except String (SongRec × Bool) :=
  match db.findSong songId with
  | some song =>
      if userId ∉ song.likedBy then
        let added :=
          { song with
              likedBy := song.likedBy ++ [userId]
              likesCount := song.likesCount + 1 }
        let db1 := db.saveSong songId added
        match addToLikedSongs db1 userId songId with
        | (db2, .ok _) => (db2, .ok (added, true))
        | (db2, .error e) =>
            (db2.adjustSong songId (fun s =>
              { s with
                  likedBy := s.likedBy.filter (fun id => decide (id ≠ userId))
                  likesCount := s.likesCount - 1 }),
             .error e)
      else
        let removed :=
          { song with
              likedBy := song.likedBy.filter (fun id => decide (id ≠ userId))
              likesCount := song.likesCount - 1 }
        let db1 := db.saveSong songId removed
        match removeFromLikedSongs db1 userId songId with
        | (db2, .ok _) => (db2, .ok (removed, false))
        | (db2, .error e) =>
            (db2.adjustSong songId (fun s =>
              { s with
                  likedBy := s.likedBy ++ [userId]
                  likesCount := s.likesCount + 1 }),
             .error e)
  | none => (db, .error "Song not found")

/-! ## Route handler: `DELETE /:id/songs/:songId` (remove song from playlist)

The ObjectId-format guards of the handler are not represented: ids here are
naturals, which are always well-formed. -/

/-- The handler's observable outcomes. -/
inductive RouteResult
  | success
  | forbidden
  | songNotInPlaylist
  | songNotFoundInDb
  | err (msg : String)
deriving DecidableEq

/-- The `DELETE /:id/songs/:songId` handler: ownership validation first, then
the `recently_played` guard (403), then either the `unlikeSong` path (for the
"liked" playlist) or the direct custom-playlist removal. -/
def removeSongFromPlaylistRoute (db : DB) (userId : UserId)
    (pid : PlaylistId) (songId : SongId) : DB × RouteResult :=
  match validatePlaylistOwnership db pid userId with
  | .error e => (db, .err e)
  | .ok pl =>
      if pl.playlistType = .recently_played then (db, .forbidden)
      else if pl.playlistType = .liked then
        match unlikeSong db userId songId with
        | (db1, .ok _) => (db1, .success)
        | (db1, .error e) => (db1, .err e)
      else
        if songId ∈ pl.songs then
          match db.findSong songId with
          | none => (db, .songNotFoundInDb)
          | some song =>
              (db.savePlaylist pid
                { pl with
                    songs := pl.songs.erase songId
                    totalDuration := max 0 (pl.totalDuration - song.duration) },
               .success)
        else (db, .songNotInPlaylist)

/-! ## Observable equality of song stores

The source treats `likedBy` as a set (membership tests go through
`toString` equality), so the observable state of a song is its duration, its
counter and its liked-by membership; order of the backing array is not
observable. -/

/-- Observable equality of song documents: equal duration and counter, and
`likedBy` equal as multisets. -/
def SongRec.ObsEq (a b : SongRec) : Prop :=
  a.duration = b.duration ∧ a.likesCount = b.likesCount ∧ a.likedBy.Perm b.likedBy

theorem SongRec.obsEq_refl (s : SongRec) : s.ObsEq s :=
  ⟨rfl, rfl, List.Perm.refl _⟩

/-- Observable equality of whole song collections: same ids in the same
order, observably equal documents. -/
def songsObsEq (xs ys : List (SongId × SongRec)) : Prop :=
  List.Forall₂ (fun p q => p.1 = q.1 ∧ p.2.ObsEq q.2) xs ys

theorem songsObsEq_refl (xs : List (SongId × SongRec)) : songsObsEq xs xs := by
  induction xs with
  | nil => exact List.Forall₂.nil
  | cons a tl ih => exact List.Forall₂.cons ⟨rfl, SongRec.obsEq_refl _⟩ ih

/-! ## Helper lemmas about the store primitives -/

theorem findPlaylistByOwnerType_saveSong (db : DB) (id : SongId) (s : SongRec)
    (u : UserId) (ty : PlaylistType) :
    (db.saveSong id s).findPlaylistByOwnerType u ty = db.findPlaylistByOwnerType u ty := rfl

theorem playlists_saveSong (db : DB) (id : SongId) (s : SongRec) :
    (db.saveSong id s).playlists = db.playlists := rfl

theorem playlists_adjustSong (db : DB) (id : SongId) (f : SongRec → SongRec) :
    (db.adjustSong id f).playlists = db.playlists := rfl

theorem songs_savePlaylist (db : DB) (pid : PlaylistId) (pl : PlaylistRec) :
    (db.savePlaylist pid pl).songs = db.songs := rfl

theorem findSong_savePlaylist (db : DB) (pid : PlaylistId) (pl : PlaylistRec) (id : SongId) :
    (db.savePlaylist pid pl).findSong id = db.findSong id := rfl

theorem find?_key_set {α : Type} (xs : List (Nat × α)) (id : Nat) (v : α) :
    (xs.map (fun p => if p.1 = id then (id, v) else p)).find? (fun p => decide (p.1 = id))
      = (xs.find? (fun p => decide (p.1 = id))).map (fun _ => (id, v)) := by
  induction xs with
  | nil => rfl
  | cons a tl ih =>
      by_cases h : a.1 = id
      · simp only [List.map_cons, if_pos h]
        rw [List.find?_cons_of_pos _ (by simp), List.find?_cons_of_pos _ (by simp [h])]
        rfl
      · simp only [List.map_cons, if_neg h]
        rw [List.find?_cons_of_neg _ (by simp [h]), List.find?_cons_of_neg _ (by simp [h])]
        exact ih

theorem findSong_saveSong (db : DB) (id : SongId) (v : SongRec) :
    (db.saveSong id v).findSong id = (db.findSong id).map (fun _ => v) := by
  show ((db.songs.map _).find? _).map Prod.snd = _
  rw [find?_key_set]
  unfold DB.findSong
  cases db.songs.find? (fun p => decide (p.1 = id)) <;> rfl

theorem find?_eq_of_findSong (db : DB) (id : SongId) (s : SongRec)
    (h : db.findSong id = some s) :
    db.songs.find? (fun p => decide (p.1 = id)) = some (id, s) := by
  unfold DB.findSong at h
  cases hf : db.songs.find? (fun p => decide (p.1 = id)) with
  | none => rw [hf] at h; simp at h
  | some q =>
      rw [hf] at h
      have hq := List.find?_some hf
      simp only [decide_eq_true_eq] at hq
      simp only [Option.map_some'] at h
      cases q with
      | mk k r => cases h; cases hq; rfl

theorem entry_eq_of_nodup {α : Type} (xs : List (Nat × α))
    (hnd : (xs.map Prod.fst).Nodup) {id : Nat} {s : α}
    (hf : xs.find? (fun p => decide (p.1 = id)) = some (id, s)) :
    ∀ p ∈ xs, p.1 = id → p = (id, s) := by
  intro p hp hpid
  have hmem := List.mem_of_find?_eq_some hf
  exact List.inj_on_of_nodup_map hnd hp hmem (by simp [hpid])

theorem map_set_then_adjust (xs : List (SongId × SongRec)) (id : SongId)
    (v : SongRec) (f : SongRec → SongRec) :
    (xs.map (fun p => if p.1 = id then (id, v) else p)).map
        (fun p => if p.1 = id then (p.1, f p.2) else p)
      = xs.map (fun p => if p.1 = id then (id, f v) else p) := by
  rw [List.map_map]
  apply List.map_congr_left
  intro p _
  by_cases h : p.1 = id <;> simp [h, Function.comp]

theorem map_set_eq_self {α : Type} (xs : List (Nat × α))
    (hnd : (xs.map Prod.fst).Nodup) (k : Nat) (s : α)
    (hf : xs.find? (fun p => decide (p.1 = k)) = some (k, s)) :
    xs.map (fun p => if p.1 = k then (k, s) else p) = xs := by
  have huniq := entry_eq_of_nodup xs hnd hf
  have hid : xs.map (fun p => if p.1 = k then (k, s) else p) = xs.map id := by
    apply List.map_congr_left
    intro p hp
    by_cases h : p.1 = k
    · rw [if_pos h, huniq p hp h]; rfl
    · rw [if_neg h]; rfl
  rw [hid, List.map_id]

theorem forall₂_map_left_self {α : Type} {R : α → α → Prop} (g : α → α)
    (xs : List α) (h : ∀ p ∈ xs, R (g p) p) : List.Forall₂ R (xs.map g) xs := by
  induction xs with
  | nil => exact List.Forall₂.nil
  | cons a tl ih =>
      exact List.Forall₂.cons (h a (by simp)) (ih (fun p hp => h p (by simp [hp])))

theorem songsObsEq_map_set (xs : List (SongId × SongRec))
    (hnd : (xs.map Prod.fst).Nodup) (id : SongId) (s w : SongRec)
    (hf : xs.find? (fun p => decide (p.1 = id)) = some (id, s))
    (hw : w.ObsEq s) :
    songsObsEq (xs.map (fun p => if p.1 = id then (id, w) else p)) xs := by
  apply forall₂_map_left_self
  intro p hp
  by_cases h : p.1 = id
  · rw [entry_eq_of_nodup xs hnd hf p hp h, if_pos rfl]
    exact ⟨rfl, hw⟩
  · rw [if_neg h]
    exact ⟨rfl, SongRec.obsEq_refl _⟩

theorem erase_eq_filter_of_count_le_one (l : List Nat) (a : Nat)
    (h : l.count a ≤ 1) :
    l.erase a = l.filter (fun x => decide (x ≠ a)) := by
  induction l with
  | nil => rfl
  | cons b tl ih =>
      by_cases hb : b = a
      · subst hb
        rw [List.count_cons_self] at h
        have hnot : b ∉ tl := List.count_eq_zero.mp (by omega)
        rw [List.erase_cons_head]
        have hfb : List.filter (fun x => decide (x ≠ b)) (b :: tl)
            = List.filter (fun x => decide (x ≠ b)) tl := by simp
        rw [hfb, eq_comm, List.filter_eq_self]
        intro x hx
        simp only [ne_eq, decide_eq_true_eq]
        exact fun hxe => hnot (hxe ▸ hx)
      · rw [List.erase_cons_tail (by simp [hb]), List.filter_cons, if_pos (by simp [hb])]
        rw [List.count_cons_of_ne (fun he => hb he.symm) tl] at h
        rw [ih h]

theorem not_mem_filter_ne_self (l : List Nat) (a : Nat) :
    a ∉ l.filter (fun x => decide (x ≠ a)) := by
  simp [List.mem_filter]

theorem find?_set_of_found {α : Type} (P : α → Bool) (xs : List (Nat × α))
    (pid : Nat) (pl pl' : α)
    (h : xs.find? (fun p => P p.2) = some (pid, pl)) (hP : P pl' = true) :
    (xs.map (fun p => if p.1 = pid then (pid, pl') else p)).find? (fun p => P p.2)
      = some (pid, pl') := by
  induction xs with
  | nil => simp at h
  | cons a tl ih =>
      rcases a with ⟨k, v⟩
      simp only [List.find?_cons] at h
      by_cases hPv : P v = true
      · simp only [hPv] at h
        injection h with h'
        injection h' with h1 h2
        subst h1
        subst h2
        simp only [List.map_cons, if_pos rfl]
        simp [List.find?_cons, hP]
      · simp only [Bool.not_eq_true] at hPv
        simp only [hPv] at h
        by_cases hk : k = pid
        · subst hk
          simp only [List.map_cons, if_pos rfl]
          simp [List.find?_cons, hP]
        · simp only [List.map_cons, if_neg hk]
          simp only [List.find?_cons, hPv]
          exact ih h

theorem findPlaylistByOwnerType_owner_type (db : DB) (u : UserId)
    (ty : PlaylistType) (pid : PlaylistId) (pl : PlaylistRec)
    (h : db.findPlaylistByOwnerType u ty = some (pid, pl)) :
    pl.owner = u ∧ pl.playlistType = ty := by
  have := List.find?_some h
  simpa using this

theorem findPlaylistByOwnerType_savePlaylist (db : DB) (u : UserId)
    (ty : PlaylistType) (pid : PlaylistId) (pl pl' : PlaylistRec)
    (h : db.findPlaylistByOwnerType u ty = some (pid, pl))
    (ho : pl'.owner = pl.owner) (ht : pl'.playlistType = pl.playlistType) :
    (db.savePlaylist pid pl').findPlaylistByOwnerType u ty = some (pid, pl') := by
  have hpred := findPlaylistByOwnerType_owner_type db u ty pid pl h
  unfold DB.findPlaylistByOwnerType at h ⊢
  unfold DB.savePlaylist
  exact find?_set_of_found (fun r => decide (r.owner = u ∧ r.playlistType = ty))
    db.playlists pid pl pl' h (by simp [ho, ht, hpred.1, hpred.2])

/-! ## Branch-level characterizations of the PlaylistService operations -/

theorem addToLikedSongs_of_no_playlist (db : DB) (u : UserId) (sid : SongId)
    (h : db.findPlaylistByOwnerType u .liked = none) :
    addToLikedSongs db u sid = (db, .error "Liked Songs playlist not found") := by
  unfold addToLikedSongs
  rw [h]

theorem addToLikedSongs_of_mem (db : DB) (u : UserId) (sid : SongId)
    (pid : PlaylistId) (pl : PlaylistRec)
    (h : db.findPlaylistByOwnerType u .liked = some (pid, pl))
    (hm : sid ∈ pl.songs) :
    addToLikedSongs db u sid = (db, .ok ()) := by
  unfold addToLikedSongs
  rw [h]
  simp [hm]

theorem addToLikedSongs_of_new (db : DB) (u : UserId) (sid : SongId)
    (pid : PlaylistId) (pl : PlaylistRec) (song : SongRec)
    (h : db.findPlaylistByOwnerType u .liked = some (pid, pl))
    (hm : sid ∉ pl.songs) (hs : db.findSong sid = some song) :
    addToLikedSongs db u sid
      = (db.savePlaylist pid
          { pl with
              songs := pl.songs ++ [sid]
              totalDuration := pl.totalDuration + song.duration }, .ok ()) := by
  unfold addToLikedSongs
  rw [h]
  simp [hm, hs]

theorem removeFromLikedSongs_of_no_playlist (db : DB) (u : UserId) (sid : SongId)
    (h : db.findPlaylistByOwnerType u .liked = none) :
    removeFromLikedSongs db u sid = (db, .error "Liked Songs playlist not found") := by
  unfold removeFromLikedSongs
  rw [h]

theorem removeFromLikedSongs_of_not_mem (db : DB) (u : UserId) (sid : SongId)
    (pid : PlaylistId) (pl : PlaylistRec)
    (h : db.findPlaylistByOwnerType u .liked = some (pid, pl))
    (hm : sid ∉ pl.songs) :
    removeFromLikedSongs db u sid = (db, .ok ()) := by
  unfold removeFromLikedSongs
  rw [h]
  simp [hm]

theorem removeFromLikedSongs_of_mem (db : DB) (u : UserId) (sid : SongId)
    (pid : PlaylistId) (pl : PlaylistRec)
    (h : db.findPlaylistByOwnerType u .liked = some (pid, pl))
    (hm : sid ∈ pl.songs) :
    removeFromLikedSongs db u sid
      = (db.savePlaylist pid
          { pl with
              songs := pl.songs.erase sid
              totalDuration :=
                match db.findSong sid with
                | some song => max 0 (pl.totalDuration - song.duration)
                | none => pl.totalDuration }, .ok ()) := by
  unfold removeFromLikedSongs
  rw [h]
  simp [hm]

theorem addToRecentlyPlayed_of_some (db : DB) (u : UserId) (sid : SongId)
    (pid : PlaylistId) (pl : PlaylistRec)
    (h : db.findPlaylistByOwnerType u .recently_played = some (pid, pl)) :
    addToRecentlyPlayed db u sid
      = (db.savePlaylist pid
          { pl with
              songs :=
                if (sid :: pl.songs.erase sid).length > 50
                then (sid :: pl.songs.erase sid).take 50
                else sid :: pl.songs.erase sid
              totalDuration :=
                ((db.songs.filter (fun p =>
                    decide (p.1 ∈
                      (if (sid :: pl.songs.erase sid).length > 50
                       then (sid :: pl.songs.erase sid).take 50
                       else sid :: pl.songs.erase sid)))).map
                  (fun p => p.2.duration)).sum }, .ok ()) := by
  unfold addToRecentlyPlayed
  rw [h]

theorem addToLikedSongs_of_no_song (db : DB) (u : UserId) (sid : SongId)
    (pid : PlaylistId) (pl : PlaylistRec)
    (h : db.findPlaylistByOwnerType u .liked = some (pid, pl))
    (hm : sid ∉ pl.songs) (hs : db.findSong sid = none) :
    addToLikedSongs db u sid = (db, .error "Song not found") := by
  unfold addToLikedSongs
  rw [h]
  simp [hm, hs]

/-! ## Claim theorems -/

/-- C8.  The directional entry points guard their preconditions and mutate
nothing in the failure cases: `likeSong` fails with "Song is already liked"
when the caller is already a member of `likedBy`, `unlikeSong` fails with
"Song is not liked" when the caller is not a member, and both fail with
"Song not found" when the song id is absent — in each case the returned
state is exactly the input state. -/
theorem likeUnlike_guard_failures (db : DB) (u v : UserId) (sid tid : SongId)
    (s : SongRec)
    (hfind : db.findSong sid = some s)
    (hmem : u ∈ s.likedBy)
    (hnmem : v ∉ s.likedBy)
    (hmiss : db.findSong tid = none) :
    likeSong db u sid = (db, .error "Song is already liked") ∧
    unlikeSong db v sid = (db, .error "Song is not liked") ∧
    likeSong db u tid = (db, .error "Song not found") ∧
    unlikeSong db u tid = (db, .error "Song not found") := by
  refine ⟨?_, ?_, ?_, ?_⟩
  · unfold likeSong
    rw [hfind]
    simp [hmem]
  · unfold unlikeSong
    rw [hfind]
    simp [hnmem]
  · unfold likeSong
    rw [hmiss]
  · unfold unlikeSong
    rw [hmiss]

/-- Concrete store for the C8 witness: song 1 liked by user 5; user 6 has not
liked it; song 9 does not exist. -/
def dbW8 : DB :=
  { users := [5, 6]
    songs := [(1, { duration := 10, likedBy := [5], likesCount := 1 })]
    playlists := []
    nextPlaylistId := 0 }

/-- Witness for C8 at a concrete store. -/
theorem likeUnlike_guard_failures_witness :
    likeSong dbW8 5 1 = (dbW8, .error "Song is already liked") ∧
    unlikeSong dbW8 6 1 = (dbW8, .error "Song is not liked") ∧
    likeSong dbW8 5 9 = (dbW8, .error "Song not found") ∧
    unlikeSong dbW8 5 9 = (dbW8, .error "Song not found") :=
  likeUnlike_guard_failures dbW8 5 6 1 9
    { duration := 10, likedBy := [5], likesCount := 1 }
    (by decide) (by decide) (by decide) (by decide)

/-- C9.  Removing a song id from the "liked" playlist when the id is present:
the first occurrence is spliced out unconditionally; the total duration is
left unchanged when the song document no longer exists in the store, and is
decreased by the song's duration floored at zero when it does. -/
theorem removeFromLikedSongs_missing_song_doc (db : DB) (u : UserId)
    (sid : SongId) (pid : PlaylistId) (pl : PlaylistRec)
    (hpl : db.findPlaylistByOwnerType u .liked = some (pid, pl))
    (hmem : sid ∈ pl.songs) :
    (removeFromLikedSongs db u sid).2 = .ok () ∧
    ∃ pl',
      (removeFromLikedSongs db u sid).1.findPlaylistByOwnerType u .liked
        = some (pid, pl') ∧
      pl'.songs = pl.songs.erase sid ∧
      (db.findSong sid = none → pl'.totalDuration = pl.totalDuration) ∧
      (∀ song, db.findSong sid = some song →
        pl'.totalDuration = max 0 (pl.totalDuration - song.duration)) := by
  rw [removeFromLikedSongs_of_mem db u sid pid pl hpl hmem]
  refine ⟨rfl, _,
    findPlaylistByOwnerType_savePlaylist db u .liked pid pl _ hpl rfl rfl,
    rfl, ?_, ?_⟩
  · intro h0
    simp [h0]
  · intro song hsg
    simp [hsg]

/-- Liked playlist containing a dangling song id 9, for the C9 witness. -/
def plW9 : PlaylistRec :=
  { name := "Liked Songs", owner := 5, songs := [9], totalDuration := 100,
    isDefault := true, playlistType := .liked }

/-- Store for the C9 witness: the liked playlist references song 9 but the
song store is empty. -/
def dbW9 : DB :=
  { users := [5], songs := [], playlists := [(3, plW9)], nextPlaylistId := 4 }

/-- Witness for C9 at a concrete store with a dangling reference. -/
theorem removeFromLikedSongs_missing_song_doc_witness :
    dbW9.findPlaylistByOwnerType 5 .liked = some (3, plW9) ∧ 9 ∈ plW9.songs ∧
    ((removeFromLikedSongs dbW9 5 9).2 = .ok () ∧
      ∃ pl',
        (removeFromLikedSongs dbW9 5 9).1.findPlaylistByOwnerType 5 .liked
          = some (3, pl') ∧
        pl'.songs = plW9.songs.erase 9 ∧
        (dbW9.findSong 9 = none → pl'.totalDuration = plW9.totalDuration) ∧
        (∀ song, dbW9.findSong 9 = some song →
          pl'.totalDuration = max 0 (plW9.totalDuration - song.duration))) :=
  ⟨by decide, by decide,
    removeFromLikedSongs_missing_song_doc dbW9 5 9 3 plW9 (by decide) (by decide)⟩

/-- C5.  `addToLikedSongs` is idempotent: running it a second time with the
same user and song leaves the state of the first run unchanged (the second
run is a no-op when the song is already present, and error paths never
mutate). -/
theorem addToLikedSongs_idempotent (db : DB) (u : UserId) (sid : SongId) :
    (addToLikedSongs (addToLikedSongs db u sid).1 u sid).1
      = (addToLikedSongs db u sid).1 := by
  cases hpl : db.findPlaylistByOwnerType u .liked with
  | none =>
      have h1 := addToLikedSongs_of_no_playlist db u sid hpl
      rw [h1]
      exact congrArg Prod.fst h1
  | some q =>
      rcases q with ⟨pid, pl⟩
      by_cases hm : sid ∈ pl.songs
      · have h1 := addToLikedSongs_of_mem db u sid pid pl hpl hm
        rw [h1]
        exact congrArg Prod.fst h1
      · cases hs : db.findSong sid with
        | none =>
            have h1 := addToLikedSongs_of_no_song db u sid pid pl hpl hm hs
            rw [h1]
            exact congrArg Prod.fst h1
        | some song =>
            have h1 := addToLikedSongs_of_new db u sid pid pl song hpl hm hs
            rw [h1]
            have hpl' :=
              findPlaylistByOwnerType_savePlaylist db u .liked pid pl
                { pl with
                    songs := pl.songs ++ [sid]
                    totalDuration := pl.totalDuration + song.duration }
                hpl rfl rfl
            have h2 := addToLikedSongs_of_mem _ u sid pid _ hpl' (by simp)
            exact congrArg Prod.fst h2

/-- The recently-played playlist owned by user 7, for C6. -/
def plC6 : PlaylistRec :=
  { name := "Recently Played", owner := 7, songs := [], totalDuration := 0,
    isDefault := true, playlistType := .recently_played }

/-- Store for C6: playlist 1 is user 7's recently-played list; user 8 is a
different caller. -/
def dbC6 : DB :=
  { users := [7, 8], songs := [], playlists := [(1, plC6)], nextPlaylistId := 2 }

/-- C6 counterexample.  The claim "removeSongFromPlaylist on a
recently_played playlist always fails with Forbidden, regardless of whether
the caller owns the playlist" is false: a non-owner caller (user 8 on user
7's playlist) receives the AccessDenied error, because ownership is
validated before the playlist-type guard. -/
theorem removeSongRoute_recentlyPlayed_not_always_forbidden :
    (removeSongFromPlaylistRoute dbC6 8 1 0).2
        = RouteResult.err "Access denied. You can only access your own playlists" ∧
    (removeSongFromPlaylistRoute dbC6 8 1 0).2 ≠ RouteResult.forbidden := by
  exact ⟨by decide, by decide⟩

/-- C6 amended.  On a recently_played playlist the removal never succeeds and
never mutates state: it fails with Forbidden when the caller owns the
playlist, and with AccessDenied when not (ownership is checked first). -/
theorem removeSongRoute_recentlyPlayed_guard (db : DB) (u : UserId)
    (pid : PlaylistId) (sid : SongId) (pl : PlaylistRec)
    (hfind : db.findPlaylist pid = some pl)
    (hty : pl.playlistType = .recently_played) :
    (removeSongFromPlaylistRoute db u pid sid).1 = db ∧
    (removeSongFromPlaylistRoute db u pid sid).2 =
      (if pl.owner = u then RouteResult.forbidden
       else RouteResult.err "Access denied. You can only access your own playlists") := by
  unfold removeSongFromPlaylistRoute validatePlaylistOwnership
  rw [hfind]
  by_cases ho : pl.owner = u
  · simp [ho, hty]
  · simp [ho, hty]

/-- Witness for the amended C6 in the owner case: user 7 removing from their
own recently-played playlist is rejected with Forbidden. -/
theorem removeSongRoute_recentlyPlayed_guard_witness :
    dbC6.findPlaylist 1 = some plC6 ∧ plC6.playlistType = .recently_played ∧
    ((removeSongFromPlaylistRoute dbC6 7 1 0).1 = dbC6 ∧
      (removeSongFromPlaylistRoute dbC6 7 1 0).2 =
        (if plC6.owner = 7 then RouteResult.forbidden
         else RouteResult.err "Access denied. You can only access your own playlists")) :=
  ⟨by decide, by decide,
    removeSongRoute_recentlyPlayed_guard dbC6 7 1 0 plC6 (by decide) (by decide)⟩

/-- C2.  Functional specification of `toggleLikeSong` when the caller's
"liked" playlist exists: a missing song id fails with "Song not found"
without mutation; when the song exists, the user is appended to `likedBy`
with the counter incremented and `isLiked = true` exactly when the user was
not a member beforehand, and otherwise every occurrence of the user is pulled
with the counter decremented and `isLiked = false`; in both branches the
returned record is exactly the post-mutation stored record. -/
theorem toggleLike_toggle_spec (db : DB) (u : UserId) (sid : SongId)
    (pid : PlaylistId) (pl : PlaylistRec)
    (hpl : db.findPlaylistByOwnerType u .liked = some (pid, pl)) :
    (db.findSong sid = none →
      toggleLikeSong db u sid = (db, .error "Song not found")) ∧
    (∀ s, db.findSong sid = some s →
      (u ∉ s.likedBy →
        (toggleLikeSong db u sid).2
          = .ok ({ s with likedBy := s.likedBy ++ [u],
                          likesCount := s.likesCount + 1 }, true) ∧
        (toggleLikeSong db u sid).1.findSong sid
          = some { s with likedBy := s.likedBy ++ [u],
                          likesCount := s.likesCount + 1 }) ∧
      (u ∈ s.likedBy →
        (toggleLikeSong db u sid).2
          = .ok ({ s with likedBy := s.likedBy.filter (fun x => decide (x ≠ u)),
                          likesCount := s.likesCount - 1 }, false) ∧
        (toggleLikeSong db u sid).1.findSong sid
          = some { s with likedBy := s.likedBy.filter (fun x => decide (x ≠ u)),
                          likesCount := s.likesCount - 1 })) := by
  constructor
  · intro h0
    unfold toggleLikeSong
    rw [h0]
  · intro s hs
    constructor
    · intro hn
      unfold toggleLikeSong
      simp only [hs]
      rw [if_pos hn]
      have hpl1 : (db.saveSong sid
          { s with likedBy := s.likedBy ++ [u],
                   likesCount := s.likesCount + 1 }).findPlaylistByOwnerType
            u .liked = some (pid, pl) := hpl
      have hs1 : (db.saveSong sid
          { s with likedBy := s.likedBy ++ [u],
                   likesCount := s.likesCount + 1 }).findSong sid
          = some { s with likedBy := s.likedBy ++ [u],
                          likesCount := s.likesCount + 1 } := by
        rw [findSong_saveSong, hs]
        rfl
      by_cases hm : sid ∈ pl.songs
      · rw [addToLikedSongs_of_mem _ u sid pid pl hpl1 hm]
        exact ⟨rfl, hs1⟩
      · rw [addToLikedSongs_of_new _ u sid pid pl
          { s with likedBy := s.likedBy ++ [u], likesCount := s.likesCount + 1 }
          hpl1 hm hs1]
        refine ⟨rfl, ?_⟩
        rw [findSong_savePlaylist]
        exact hs1
    · intro hm
      unfold toggleLikeSong
      simp only [hs]
      rw [if_neg (not_not_intro hm)]
      have hpl1 : (db.saveSong sid
          { s with likedBy := s.likedBy.filter (fun x => decide (x ≠ u)),
                   likesCount := s.likesCount - 1 }).findPlaylistByOwnerType
            u .liked = some (pid, pl) := hpl
      have hs1 : (db.saveSong sid
          { s with likedBy := s.likedBy.filter (fun x => decide (x ≠ u)),
                   likesCount := s.likesCount - 1 }).findSong sid
          = some { s with likedBy := s.likedBy.filter (fun x => decide (x ≠ u)),
                          likesCount := s.likesCount - 1 } := by
        rw [findSong_saveSong, hs]
        rfl
      by_cases hms : sid ∈ pl.songs
      · rw [removeFromLikedSongs_of_mem _ u sid pid pl hpl1 hms]
        refine ⟨rfl, ?_⟩
        rw [findSong_savePlaylist]
        exact hs1
      · rw [removeFromLikedSongs_of_not_mem _ u sid pid pl hpl1 hms]
        exact ⟨rfl, hs1⟩

/-- User 5's liked playlist, for the C2 witness. -/
def plW2 : PlaylistRec :=
  { name := "Liked Songs", owner := 5, songs := [], totalDuration := 0,
    isDefault := true, playlistType := .liked }

/-- Store for the C2 witness: song 1 not yet liked by user 5. -/
def dbW2 : DB :=
  { users := [5]
    songs := [(1, { duration := 120, likedBy := [], likesCount := 0 })]
    playlists := [(10, plW2)]
    nextPlaylistId := 11 }

/-- Witness for C2: toggling a not-yet-liked song adds the user and returns
`isLiked = true`, and a missing song id fails with "Song not found". -/
theorem toggleLike_toggle_spec_witness :
    dbW2.findPlaylistByOwnerType 5 .liked = some (10, plW2) ∧
    dbW2.findSong 1 = some { duration := 120, likedBy := [], likesCount := 0 } ∧
    (5 : UserId) ∉ ([] : List UserId) ∧
    (toggleLikeSong dbW2 5 1).2
      = .ok ({ duration := 120, likedBy := [5], likesCount := 1 }, true) ∧
    (toggleLikeSong dbW2 5 1).1.findSong 1
      = some { duration := 120, likedBy := [5], likesCount := 1 } := by
  refine ⟨by decide, by decide, by decide, ?_⟩
  have h := ((toggleLike_toggle_spec dbW2 5 1 10 plW2 (by decide)).2
      { duration := 120, likedBy := [], likesCount := 0 } (by decide)).1
    (by decide)
  exact h

/-- C1.  Compensation in `toggleLikeSong`: when the playlist step fails (the
caller's "liked" playlist is absent, the realizable failure of both
`addToLikedSongs` and `removeFromLikedSongs`), the inverse update restores
the song store — in either branch — up to observable equality (same ids,
durations and counters, `likedBy` equal as multisets), the playlist store is
untouched, and the original playlist error is surfaced to the caller. -/
theorem toggleLike_compensation (db : DB) (u : UserId) (sid : SongId)
    (s : SongRec)
    (hkeys : (db.songs.map Prod.fst).Nodup)
    (hfind : db.findSong sid = some s)
    (hcount : s.likedBy.count u ≤ 1)
    (hpl : db.findPlaylistByOwnerType u .liked = none) :
    (toggleLikeSong db u sid).2 = .error "Liked Songs playlist not found" ∧
    songsObsEq (toggleLikeSong db u sid).1.songs db.songs ∧
    (toggleLikeSong db u sid).1.playlists = db.playlists := by
  have hf := find?_eq_of_findSong db sid s hfind
  by_cases hn : u ∈ s.likedBy
  · -- unlike branch: conditional remove applied, then compensating push-back
    unfold toggleLikeSong
    simp only [hfind]
    rw [if_neg (not_not_intro hn)]
    have hpl1 : (db.saveSong sid
        { s with likedBy := s.likedBy.filter (fun x => decide (x ≠ u)),
                 likesCount := s.likesCount - 1 }).findPlaylistByOwnerType
          u .liked = none := hpl
    rw [removeFromLikedSongs_of_no_playlist _ u sid hpl1]
    refine ⟨rfl, ?_, rfl⟩
    show songsObsEq
      ((db.songs.map (fun p => if p.1 = sid then (sid,
          { s with likedBy := s.likedBy.filter (fun x => decide (x ≠ u)),
                   likesCount := s.likesCount - 1 }) else p)).map
        (fun p => if p.1 = sid then (p.1,
          (fun t => { t with likedBy := t.likedBy ++ [u],
                             likesCount := t.likesCount + 1 }) p.2) else p))
      db.songs
    rw [map_set_then_adjust db.songs sid
      { s with likedBy := s.likedBy.filter (fun x => decide (x ≠ u)),
               likesCount := s.likesCount - 1 }
      (fun t => { t with likedBy := t.likedBy ++ [u],
                         likesCount := t.likesCount + 1 })]
    refine songsObsEq_map_set db.songs hkeys sid s _ hf ?_
    refine ⟨rfl, ?_, ?_⟩
    · show s.likesCount - 1 + 1 = s.likesCount
      omega
    · show (s.likedBy.filter (fun x => decide (x ≠ u)) ++ [u]).Perm s.likedBy
      rw [← erase_eq_filter_of_count_le_one s.likedBy u hcount]
      exact (List.perm_append_singleton u _).trans (List.perm_cons_erase hn).symm
  · -- like branch: conditional add applied, then compensating pull
    unfold toggleLikeSong
    simp only [hfind]
    rw [if_pos hn]
    have hpl1 : (db.saveSong sid
        { s with likedBy := s.likedBy ++ [u],
                 likesCount := s.likesCount + 1 }).findPlaylistByOwnerType
          u .liked = none := hpl
    rw [addToLikedSongs_of_no_playlist _ u sid hpl1]
    refine ⟨rfl, ?_, rfl⟩
    show songsObsEq
      ((db.songs.map (fun p => if p.1 = sid then (sid,
          { s with likedBy := s.likedBy ++ [u],
                   likesCount := s.likesCount + 1 }) else p)).map
        (fun p => if p.1 = sid then (p.1,
          (fun t => { t with likedBy := t.likedBy.filter (fun x => decide (x ≠ u)),
                             likesCount := t.likesCount - 1 }) p.2) else p))
      db.songs
    rw [map_set_then_adjust db.songs sid
      { s with likedBy := s.likedBy ++ [u], likesCount := s.likesCount + 1 }
      (fun t => { t with likedBy := t.likedBy.filter (fun x => decide (x ≠ u)),
                         likesCount := t.likesCount - 1 })]
    refine songsObsEq_map_set db.songs hkeys sid s _ hf ?_
    have hfilter : s.likedBy.filter (fun x => decide (x ≠ u)) = s.likedBy :=
      List.filter_eq_self.mpr (fun x hx => by
        simp only [ne_eq, decide_eq_true_eq]
        exact fun he => hn (he ▸ hx))
    refine ⟨rfl, ?_, ?_⟩
    · show s.likesCount + 1 - 1 = s.likesCount
      omega
    · show ((s.likedBy ++ [u]).filter (fun x => decide (x ≠ u))).Perm s.likedBy
      have h1 : List.filter (fun x => decide (x ≠ u)) [u] = [] := by simp
      rw [List.filter_append, hfilter, h1, List.append_nil]

/-- Store for the C1 witness: song 1 exists (not liked by user 5) but user 5
has no "liked" playlist, so the playlist step of the like branch fails. -/
def dbW1 : DB :=
  { users := [5]
    songs := [(1, { duration := 7, likedBy := [], likesCount := 0 })]
    playlists := []
    nextPlaylistId := 0 }

/-- Witness for C1: the failed toggle surfaces the playlist error and the
song store is observably unchanged. -/
theorem toggleLike_compensation_witness :
    (dbW1.songs.map Prod.fst).Nodup ∧
    dbW1.findSong 1 = some { duration := 7, likedBy := [], likesCount := 0 } ∧
    ([] : List UserId).count 5 ≤ 1 ∧
    dbW1.findPlaylistByOwnerType 5 .liked = none ∧
    ((toggleLikeSong dbW1 5 1).2 = .error "Liked Songs playlist not found" ∧
      songsObsEq (toggleLikeSong dbW1 5 1).1.songs dbW1.songs ∧
      (toggleLikeSong dbW1 5 1).1.playlists = dbW1.playlists) :=
  ⟨by decide, by decide, by decide, by decide,
    toggleLike_compensation dbW1 5 1 { duration := 7, likedBy := [], likesCount := 0 }
      (by decide) (by decide) (by decide) (by decide)⟩

/-- C3.  After a successful `toggleLikeSong` (song present, liked playlist
present), the counter invariant `likesCount = |likedBy|` is preserved and
membership of the user in the song's `likedBy` coincides with membership of
the song id in the user's liked playlist. -/
theorem toggleLike_invariants (db : DB) (u : UserId) (sid : SongId)
    (s : SongRec) (pid : PlaylistId) (pl : PlaylistRec)
    (hfind : db.findSong sid = some s)
    (hinv : s.likesCount = (s.likedBy.length : Int))
    (hcu : s.likedBy.count u ≤ 1)
    (hpl : db.findPlaylistByOwnerType u .liked = some (pid, pl))
    (hcs : pl.songs.count sid ≤ 1) :
    ∃ r s' pl',
      (toggleLikeSong db u sid).2 = .ok r ∧
      (toggleLikeSong db u sid).1.findSong sid = some s' ∧
      (toggleLikeSong db u sid).1.findPlaylistByOwnerType u .liked
        = some (pid, pl') ∧
      s'.likesCount = (s'.likedBy.length : Int) ∧
      (u ∈ s'.likedBy ↔ sid ∈ pl'.songs) := by
  by_cases hn : u ∈ s.likedBy
  · -- unlike branch
    unfold toggleLikeSong
    simp only [hfind]
    rw [if_neg (not_not_intro hn)]
    have hpl1 : (db.saveSong sid
        { s with likedBy := s.likedBy.filter (fun x => decide (x ≠ u)),
                 likesCount := s.likesCount - 1 }).findPlaylistByOwnerType
          u .liked = some (pid, pl) := hpl
    have hs1 : (db.saveSong sid
        { s with likedBy := s.likedBy.filter (fun x => decide (x ≠ u)),
                 likesCount := s.likesCount - 1 }).findSong sid
        = some { s with likedBy := s.likedBy.filter (fun x => decide (x ≠ u)),
                        likesCount := s.likesCount - 1 } := by
      rw [findSong_saveSong, hfind]
      rfl
    have hlen : 0 < s.likedBy.length :=
      List.length_pos.mpr (fun he => by simp [he] at hn)
    have hcnt : s.likesCount - 1
        = ((s.likedBy.filter (fun x => decide (x ≠ u))).length : Int) := by
      rw [← erase_eq_filter_of_count_le_one _ _ hcu, List.length_erase_of_mem hn,
        hinv]
      omega
    have hum : u ∉ s.likedBy.filter (fun x => decide (x ≠ u)) :=
      not_mem_filter_ne_self _ _
    by_cases hms : sid ∈ pl.songs
    · rw [removeFromLikedSongs_of_mem _ u sid pid pl hpl1 hms, hs1]
      refine ⟨({ s with likedBy := s.likedBy.filter (fun x => decide (x ≠ u)),
                        likesCount := s.likesCount - 1 }, false),
        { s with likedBy := s.likedBy.filter (fun x => decide (x ≠ u)),
                 likesCount := s.likesCount - 1 },
        { pl with songs := pl.songs.erase sid,
                  totalDuration := max 0 (pl.totalDuration - s.duration) },
        rfl, ?_, ?_, ?_, ?_⟩
      · rw [findSong_savePlaylist]
        exact hs1
      · exact findPlaylistByOwnerType_savePlaylist _ u .liked pid pl
          { pl with songs := pl.songs.erase sid,
                    totalDuration := max 0 (pl.totalDuration - s.duration) }
          hpl1 rfl rfl
      · exact hcnt
      · refine iff_of_false hum ?_
        show sid ∉ pl.songs.erase sid
        rw [erase_eq_filter_of_count_le_one _ _ hcs]
        exact not_mem_filter_ne_self _ _
    · rw [removeFromLikedSongs_of_not_mem _ u sid pid pl hpl1 hms]
      refine ⟨({ s with likedBy := s.likedBy.filter (fun x => decide (x ≠ u)),
                        likesCount := s.likesCount - 1 }, false),
        { s with likedBy := s.likedBy.filter (fun x => decide (x ≠ u)),
                 likesCount := s.likesCount - 1 }, pl,
        rfl, hs1, hpl1, ?_, iff_of_false hum hms⟩
      exact hcnt
  · -- like branch
    unfold toggleLikeSong
    simp only [hfind]
    rw [if_pos hn]
    have hpl1 : (db.saveSong sid
        { s with likedBy := s.likedBy ++ [u],
                 likesCount := s.likesCount + 1 }).findPlaylistByOwnerType
          u .liked = some (pid, pl) := hpl
    have hs1 : (db.saveSong sid
        { s with likedBy := s.likedBy ++ [u],
                 likesCount := s.likesCount + 1 }).findSong sid
        = some { s with likedBy := s.likedBy ++ [u],
                        likesCount := s.likesCount + 1 } := by
      rw [findSong_saveSong, hfind]
      rfl
    have hcnt : s.likesCount + 1 = ((s.likedBy ++ [u]).length : Int) := by
      rw [List.length_append, List.length_singleton, hinv]
      push_cast
      ring
    have hum : u ∈ s.likedBy ++ [u] := by simp
    by_cases hms : sid ∈ pl.songs
    · rw [addToLikedSongs_of_mem _ u sid pid pl hpl1 hms]
      refine ⟨({ s with likedBy := s.likedBy ++ [u],
                        likesCount := s.likesCount + 1 }, true),
        { s with likedBy := s.likedBy ++ [u],
                 likesCount := s.likesCount + 1 }, pl,
        rfl, hs1, hpl1, ?_, iff_of_true hum hms⟩
      exact hcnt
    · rw [addToLikedSongs_of_new _ u sid pid pl
        { s with likedBy := s.likedBy ++ [u], likesCount := s.likesCount + 1 }
        hpl1 hms hs1]
      refine ⟨({ s with likedBy := s.likedBy ++ [u],
                        likesCount := s.likesCount + 1 }, true),
        { s with likedBy := s.likedBy ++ [u],
                 likesCount := s.likesCount + 1 },
        { pl with songs := pl.songs ++ [sid],
                  totalDuration := pl.totalDuration + s.duration },
        rfl, ?_, ?_, ?_, ?_⟩
      · rw [findSong_savePlaylist]
        exact hs1
      · exact findPlaylistByOwnerType_savePlaylist _ u .liked pid pl
          { pl with songs := pl.songs ++ [sid],
                    totalDuration := pl.totalDuration + s.duration }
          hpl1 rfl rfl
      · exact hcnt
      · exact iff_of_true hum (by simp)

/-- User 5's liked playlist already containing song 1, for the C3 witness. -/
def plW3 : PlaylistRec :=
  { name := "Liked Songs", owner := 5, songs := [1], totalDuration := 120,
    isDefault := true, playlistType := .liked }

/-- Store for the C3 witness: song 1 liked by user 5 and synced into the
liked playlist; the toggle will run the unlike branch. -/
def dbW3 : DB :=
  { users := [5]
    songs := [(1, { duration := 120, likedBy := [5], likesCount := 1 })]
    playlists := [(10, plW3)]
    nextPlaylistId := 11 }

/-- Witness for C3 on the unlike branch at a concrete store. -/
theorem toggleLike_invariants_witness :
    dbW3.findSong 1 = some { duration := 120, likedBy := [5], likesCount := 1 } ∧
    (1 : Int) = (([5] : List UserId).length : Int) ∧
    ([5] : List UserId).count 5 ≤ 1 ∧
    dbW3.findPlaylistByOwnerType 5 .liked = some (10, plW3) ∧
    plW3.songs.count 1 ≤ 1 ∧
    (∃ r s' pl',
      (toggleLikeSong dbW3 5 1).2 = .ok r ∧
      (toggleLikeSong dbW3 5 1).1.findSong 1 = some s' ∧
      (toggleLikeSong dbW3 5 1).1.findPlaylistByOwnerType 5 .liked
        = some (10, pl') ∧
      s'.likesCount = (s'.likedBy.length : Int) ∧
      (5 ∈ s'.likedBy ↔ 1 ∈ pl'.songs)) :=
  ⟨by decide, by decide, by decide, by decide, by decide,
    toggleLike_invariants dbW3 5 1 { duration := 120, likedBy := [5], likesCount := 1 }
      10 plW3 (by decide) (by decide) (by decide) (by decide) (by decide)⟩

/-! ## Recomputed duration of the recently-played playlist -/

theorem sum_map_ite_special (d : List SongId) (hd : d.Nodup) (k : SongId)
    (A : Int) (g : SongId → Int) (hgk : g k = 0) :
    (d.map (fun x => if k = x then A else g x)).sum
      = (if k ∈ d then A else 0) + (d.map g).sum := by
  induction d with
  | nil => simp
  | cons b dtl ih =>
      rcases List.nodup_cons.mp hd with ⟨hb, hdtl⟩
      by_cases hk : k = b
      · subst hk
        simp only [List.map_cons, List.sum_cons, if_pos rfl, List.mem_cons,
          true_or, if_pos, hgk]
        have hmap : dtl.map (fun x => if k = x then A else g x) = dtl.map g := by
          apply List.map_congr_left
          intro x hx
          rw [if_neg (fun he => hb (by rw [he]; exact hx))]
        rw [hmap]
        ring
      · simp only [List.map_cons, List.sum_cons, if_neg hk]
        rw [ih hdtl]
        have hmem : (if k ∈ b :: dtl then A else 0) = (if k ∈ dtl then A else 0) := by
          by_cases hm : k ∈ dtl
          · rw [if_pos hm, if_pos (List.mem_cons_of_mem b hm)]
          · rw [if_neg hm, if_neg (by simp [hk, hm])]
        rw [hmem]
        ring

theorem sum_filter_mem_eq_sum_dedup (xs : List (SongId × SongRec))
    (hnd : (xs.map Prod.fst).Nodup) (L : List SongId) :
    ((xs.filter (fun p => decide (p.1 ∈ L))).map (fun p => p.2.duration)).sum
      = (L.dedup.map (fun i =>
          (((xs.find? (fun p => decide (p.1 = i))).map Prod.snd).map
            SongRec.duration).getD 0)).sum := by
  induction xs with
  | nil => simp
  | cons q tl ih =>
      rcases q with ⟨k, s⟩
      simp only [List.map_cons] at hnd
      rcases List.nodup_cons.mp hnd with ⟨hk, htl⟩
      have hgk : (((tl.find? (fun p => decide (p.1 = k))).map Prod.snd).map
          SongRec.duration).getD 0 = 0 := by
        have hnone : tl.find? (fun p => decide (p.1 = k)) = none := by
          rw [List.find?_eq_none]
          intro p hp
          simp only [decide_eq_true_eq]
          exact fun he => hk (by rw [← he]; exact List.mem_map_of_mem Prod.fst hp)
        rw [hnone]
        rfl
      have hfun : ∀ i ∈ L.dedup,
          (((((k, s) :: tl).find? (fun p => decide (p.1 = i))).map Prod.snd).map
              SongRec.duration).getD 0
            = (if k = i then s.duration
               else (((tl.find? (fun p => decide (p.1 = i))).map Prod.snd).map
                 SongRec.duration).getD 0) := by
        intro i hi
        by_cases hki : k = i
        · subst hki
          rw [List.find?_cons_of_pos _ (by simp), if_pos rfl]
          rfl
        · rw [List.find?_cons_of_neg _ (by simp [hki]), if_neg hki]
      rw [List.filter_cons]
      by_cases hkL : k ∈ L
      · rw [if_pos (by simpa using hkL)]
        simp only [List.map_cons, List.sum_cons]
        rw [ih htl, List.map_congr_left hfun,
          sum_map_ite_special L.dedup (List.nodup_dedup L) k s.duration _ hgk,
          if_pos (List.mem_dedup.mpr hkL)]
      · rw [if_neg (by simpa using hkL)]
        rw [ih htl, List.map_congr_left hfun,
          sum_map_ite_special L.dedup (List.nodup_dedup L) k s.duration _ hgk,
          if_neg (fun hm => hkL (List.mem_dedup.mp hm))]
        ring

/-- The recomputed recently-played duration, reformulated per retained id:
each distinct retained id contributes its stored duration once, ids missing
from the store contribute zero. -/
theorem recompute_duration_eq (db : DB)
    (hnd : (db.songs.map Prod.fst).Nodup) (L : List SongId) :
    ((db.songs.filter (fun p => decide (p.1 ∈ L))).map (fun p => p.2.duration)).sum
      = (L.dedup.map (fun i => ((db.findSong i).map SongRec.duration).getD 0)).sum := by
  unfold DB.findSong
  exact sum_filter_mem_eq_sum_dedup db.songs hnd L

theorem recompute_duration_nonneg (db : DB)
    (hdur : ∀ p ∈ db.songs, 0 ≤ p.2.duration) (L : List SongId) :
    0 ≤ ((db.songs.filter (fun p => decide (p.1 ∈ L))).map
      (fun p => p.2.duration)).sum := by
  apply List.sum_nonneg
  intro x hx
  rcases List.mem_map.mp hx with ⟨p, hp, rfl⟩
  exact hdur p (List.mem_of_mem_filter hp)

/-- C4.  `addToRecentlyPlayed` implements bounded move-to-front at the
code's fixed bound 50: any existing occurrence of the played id is removed,
the id is inserted at the front, the sequence is truncated to 50 from the
front, and the total duration is recomputed as the sum of the stored
durations of the currently retained ids only (each distinct retained id
once, trimmed-off ids dropped). -/
theorem recordPlay_moveToFrontBounded (db : DB) (u : UserId) (sid : SongId)
    (pid : PlaylistId) (pl : PlaylistRec)
    (hkeys : (db.songs.map Prod.fst).Nodup)
    (hpl : db.findPlaylistByOwnerType u .recently_played = some (pid, pl))
    (hcnt : pl.songs.count sid ≤ 1) :
    (addToRecentlyPlayed db u sid).2 = .ok () ∧
    ∃ pl',
      (addToRecentlyPlayed db u sid).1.findPlaylistByOwnerType
        u .recently_played = some (pid, pl') ∧
      pl'.songs = (sid :: pl.songs.filter (fun x => decide (x ≠ sid))).take 50 ∧
      pl'.totalDuration = (pl'.songs.dedup.map
        (fun i => ((db.findSong i).map SongRec.duration).getD 0)).sum := by
  rw [addToRecentlyPlayed_of_some db u sid pid pl hpl]
  refine ⟨rfl, _,
    findPlaylistByOwnerType_savePlaylist db u .recently_played pid pl _ hpl rfl rfl,
    ?_, ?_⟩
  · show (if (sid :: pl.songs.erase sid).length > 50
        then (sid :: pl.songs.erase sid).take 50
        else sid :: pl.songs.erase sid)
      = (sid :: pl.songs.filter (fun x => decide (x ≠ sid))).take 50
    rw [← erase_eq_filter_of_count_le_one _ _ hcnt]
    by_cases hlen : (sid :: pl.songs.erase sid).length > 50
    · rw [if_pos hlen]
    · rw [if_neg hlen, List.take_of_length_le (by omega)]
  · exact recompute_duration_eq db hkeys _

/-- A full (50-entry) recently-played playlist for the C4 witness. -/
def plW4 : PlaylistRec :=
  { name := "Recently Played", owner := 5, songs := List.range 50,
    totalDuration := 0, isDefault := true, playlistType := .recently_played }

/-- Store for the C4 witness: songs 0..50 exist with duration i+1; the
playlist holds songs 0..49. -/
def dbW4 : DB :=
  { users := [5]
    songs := (List.range 51).map
      (fun i => (i, { duration := (i : Int) + 1, likedBy := [], likesCount := 0 }))
    playlists := [(20, plW4)]
    nextPlaylistId := 21 }

/-- Witness for C4: playing song 50 on the full playlist moves it to the
front and drops song 49 from the tail. -/
theorem recordPlay_moveToFrontBounded_witness :
    (dbW4.songs.map Prod.fst).Nodup ∧
    dbW4.findPlaylistByOwnerType 5 .recently_played = some (20, plW4) ∧
    plW4.songs.count 50 ≤ 1 ∧
    ((addToRecentlyPlayed dbW4 5 50).2 = .ok () ∧
      ∃ pl',
        (addToRecentlyPlayed dbW4 5 50).1.findPlaylistByOwnerType
          5 .recently_played = some (20, pl') ∧
        pl'.songs = (50 :: plW4.songs.filter (fun x => decide (x ≠ 50))).take 50 ∧
        pl'.totalDuration = (pl'.songs.dedup.map
          (fun i => ((dbW4.findSong i).map SongRec.duration).getD 0)).sum) :=
  ⟨by decide, by decide, by decide,
    recordPlay_moveToFrontBounded dbW4 5 50 20 plW4 (by decide) (by decide)
      (by decide)⟩

/-- C10.  After `addToRecentlyPlayed`, the recomputed total duration counts
each retained id by store lookup: distinct retained ids contribute their
stored duration once (duplicates only once), ids whose documents are gone
contribute zero, and the total is non-negative whenever all stored durations
are. -/
theorem recentlyPlayed_duration_recompute (db : DB) (u : UserId) (sid : SongId)
    (pid : PlaylistId) (pl : PlaylistRec)
    (hkeys : (db.songs.map Prod.fst).Nodup)
    (hdur : ∀ p ∈ db.songs, 0 ≤ p.2.duration)
    (hpl : db.findPlaylistByOwnerType u .recently_played = some (pid, pl)) :
    (addToRecentlyPlayed db u sid).2 = .ok () ∧
    ∃ pl',
      (addToRecentlyPlayed db u sid).1.findPlaylistByOwnerType
        u .recently_played = some (pid, pl') ∧
      pl'.totalDuration = (pl'.songs.dedup.map
        (fun i => ((db.findSong i).map SongRec.duration).getD 0)).sum ∧
      0 ≤ pl'.totalDuration := by
  rw [addToRecentlyPlayed_of_some db u sid pid pl hpl]
  refine ⟨rfl, _,
    findPlaylistByOwnerType_savePlaylist db u .recently_played pid pl _ hpl rfl rfl,
    ?_, ?_⟩
  · exact recompute_duration_eq db hkeys _
  · exact recompute_duration_nonneg db hdur _

/-- Recently-played playlist with a duplicated id and a dangling id, for the
C10 witness. -/
def plW10 : PlaylistRec :=
  { name := "Recently Played", owner := 6, songs := [1, 1, 2],
    totalDuration := 0, isDefault := true, playlistType := .recently_played }

/-- Store for the C10 witness: only song 1 still exists. -/
def dbW10 : DB :=
  { users := [6]
    songs := [(1, { duration := 5, likedBy := [], likesCount := 0 })]
    playlists := [(30, plW10)]
    nextPlaylistId := 31 }

/-- Witness for C10: recording song 3 over [1, 1, 2] yields a duration of 5
(song 1 counted once, songs 2 and 3 contributing zero), non-negative. -/
theorem recentlyPlayed_duration_recompute_witness :
    (dbW10.songs.map Prod.fst).Nodup ∧
    (∀ p ∈ dbW10.songs, 0 ≤ p.2.duration) ∧
    dbW10.findPlaylistByOwnerType 6 .recently_played = some (30, plW10) ∧
    ((addToRecentlyPlayed dbW10 6 3).2 = .ok () ∧
      ∃ pl',
        (addToRecentlyPlayed dbW10 6 3).1.findPlaylistByOwnerType
          6 .recently_played = some (30, pl') ∧
        pl'.totalDuration = (pl'.songs.dedup.map
          (fun i => ((dbW10.findSong i).map SongRec.duration).getD 0)).sum ∧
        0 ≤ pl'.totalDuration) :=
  ⟨by decide, by decide, by decide,
    recentlyPlayed_duration_recompute dbW10 6 3 30 plW10 (by decide) (by decide)
      (by decide)⟩

/-! ## Default-playlist creation -/

/-- Number of playlists owned by `u` of type `ty`. -/
def countPlaylists (db : DB) (u : UserId) (ty : PlaylistType) : Nat :=
  (db.playlists.filter (fun p => decide (p.2.owner = u ∧ p.2.playlistType = ty))).length

theorem countPlaylists_eq_zero_iff (db : DB) (u : UserId) (ty : PlaylistType) :
    countPlaylists db u ty = 0 ↔ db.findPlaylistByOwnerType u ty = none := by
  unfold countPlaylists DB.findPlaylistByOwnerType
  rw [List.length_eq_zero, List.filter_eq_nil_iff, List.find?_eq_none]

theorem one_le_countPlaylists_of_find (db : DB) (u : UserId) (ty : PlaylistType)
    (q : PlaylistId × PlaylistRec)
    (h : db.findPlaylistByOwnerType u ty = some q) :
    1 ≤ countPlaylists db u ty := by
  unfold DB.findPlaylistByOwnerType at h
  have hpq := List.find?_some h
  have hq : q ∈ db.playlists.filter
      (fun p => decide (p.2.owner = u ∧ p.2.playlistType = ty)) :=
    List.mem_filter.mpr ⟨List.mem_of_find?_eq_some h, hpq⟩
  have hpos : 0 < (db.playlists.filter
      (fun p => decide (p.2.owner = u ∧ p.2.playlistType = ty))).length :=
    List.length_pos.mpr (fun hnil => by rw [hnil] at hq; simp at hq)
  unfold countPlaylists
  omega

theorem countPlaylists_createPlaylist (db : DB) (pl : PlaylistRec)
    (u : UserId) (ty : PlaylistType) :
    countPlaylists (db.createPlaylist pl) u ty
      = countPlaylists db u ty
        + (if pl.owner = u ∧ pl.playlistType = ty then 1 else 0) := by
  unfold countPlaylists DB.createPlaylist
  rw [List.filter_append, List.length_append]
  by_cases h : pl.owner = u ∧ pl.playlistType = ty
  · simp [h]
  · simp [h]

theorem findPlaylistByOwnerType_createPlaylist_of_some (db : DB)
    (pl : PlaylistRec) (u : UserId) (ty : PlaylistType)
    (q : PlaylistId × PlaylistRec)
    (h : db.findPlaylistByOwnerType u ty = some q) :
    (db.createPlaylist pl).findPlaylistByOwnerType u ty = some q := by
  unfold DB.findPlaylistByOwnerType at h ⊢
  unfold DB.createPlaylist
  rw [List.find?_append, h]
  rfl

theorem findPlaylistByOwnerType_createPlaylist_self (db : DB)
    (pl : PlaylistRec) (u : UserId) (ty : PlaylistType)
    (h : db.findPlaylistByOwnerType u ty = none)
    (hP : pl.owner = u ∧ pl.playlistType = ty) :
    (db.createPlaylist pl).findPlaylistByOwnerType u ty
      = some (db.nextPlaylistId, pl) := by
  unfold DB.findPlaylistByOwnerType at h ⊢
  unfold DB.createPlaylist
  rw [List.find?_append, h]
  simp [List.find?_cons, hP.1, hP.2]

theorem findPlaylistByOwnerType_createPlaylist_other (db : DB)
    (pl : PlaylistRec) (u : UserId) (ty : PlaylistType)
    (hP : ¬(pl.owner = u ∧ pl.playlistType = ty)) :
    (db.createPlaylist pl).findPlaylistByOwnerType u ty
      = db.findPlaylistByOwnerType u ty := by
  unfold DB.findPlaylistByOwnerType DB.createPlaylist
  rw [List.find?_append]
  cases hfx : db.playlists.find?
      (fun p => decide (p.2.owner = u ∧ p.2.playlistType = ty)) with
  | some q => rfl
  | none =>
      show Option.or none _ = none
      simp [List.find?_cons, hP]

theorem users_createPlaylist (db : DB) (pl : PlaylistRec) :
    (db.createPlaylist pl).users = db.users := rfl

/-- One run of the initializer for an existing user: it succeeds, leaves the
user list unchanged, afterwards a "liked" and a "recently_played" playlist
exist for the user, and each per-type count becomes `max count 1` (created
exactly when none existed). -/
theorem createDefaults_post (db : DB) (u : UserId) (hu : u ∈ db.users) :
    (createDefaultPlaylistsForUser db u).2 = .ok () ∧
    (createDefaultPlaylistsForUser db u).1.users = db.users ∧
    (∃ qL, (createDefaultPlaylistsForUser db u).1.findPlaylistByOwnerType
      u .liked = some qL) ∧
    (∃ qR, (createDefaultPlaylistsForUser db u).1.findPlaylistByOwnerType
      u .recently_played = some qR) ∧
    countPlaylists (createDefaultPlaylistsForUser db u).1 u .liked
      = max (countPlaylists db u .liked) 1 ∧
    countPlaylists (createDefaultPlaylistsForUser db u).1 u .recently_played
      = max (countPlaylists db u .recently_played) 1 := by
  cases hL : db.findPlaylistByOwnerType u .liked with
  | some qL =>
      have hcl := one_le_countPlaylists_of_find db u .liked qL hL
      cases hR : db.findPlaylistByOwnerType u .recently_played with
      | some qR =>
          have hcr := one_le_countPlaylists_of_find db u .recently_played qR hR
          have hrun : createDefaultPlaylistsForUser db u = (db, .ok ()) := by
            unfold createDefaultPlaylistsForUser
            rw [if_pos hu]
            simp only [hL, hR]
          rw [hrun]
          exact ⟨rfl, rfl, ⟨qL, hL⟩, ⟨qR, hR⟩, (max_eq_left hcl).symm,
            (max_eq_left hcr).symm⟩
      | none =>
          have hrun : createDefaultPlaylistsForUser db u
              = (db.createPlaylist
                  { name := "Recently Played", owner := u, songs := [],
                    totalDuration := 0, isDefault := true,
                    playlistType := .recently_played }, .ok ()) := by
            unfold createDefaultPlaylistsForUser
            rw [if_pos hu]
            simp only [hL, hR]
          rw [hrun]
          refine ⟨rfl, rfl, ⟨qL, ?_⟩, ?_, ?_, ?_⟩
          · rw [findPlaylistByOwnerType_createPlaylist_other db _ u .liked
              (by simp)]
            exact hL
          · exact ⟨_, findPlaylistByOwnerType_createPlaylist_self db _ u
              .recently_played hR ⟨rfl, rfl⟩⟩
          · rw [countPlaylists_createPlaylist, if_neg (by simp),
              max_eq_left hcl]
            omega
          · have hc0 := (countPlaylists_eq_zero_iff db u .recently_played).mpr hR
            rw [countPlaylists_createPlaylist, if_pos ⟨rfl, rfl⟩, hc0]
            decide
  | none =>
      have hc0 := (countPlaylists_eq_zero_iff db u .liked).mpr hL
      have hRother : (db.createPlaylist
          { name := "Liked Songs", owner := u, songs := [],
            totalDuration := 0, isDefault := true,
            playlistType := .liked }).findPlaylistByOwnerType
          u .recently_played = db.findPlaylistByOwnerType u .recently_played :=
        findPlaylistByOwnerType_createPlaylist_other db _ u .recently_played
          (by simp)
      cases hR : db.findPlaylistByOwnerType u .recently_played with
      | some qR =>
          have hcr := one_le_countPlaylists_of_find db u .recently_played qR hR
          have hrun : createDefaultPlaylistsForUser db u
              = (db.createPlaylist
                  { name := "Liked Songs", owner := u, songs := [],
                    totalDuration := 0, isDefault := true,
                    playlistType := .liked }, .ok ()) := by
            unfold createDefaultPlaylistsForUser
            rw [if_pos hu]
            simp only [hL]
            rw [hRother, hR]
          rw [hrun]
          refine ⟨rfl, rfl, ?_, ⟨qR, ?_⟩, ?_, ?_⟩
          · exact ⟨_, findPlaylistByOwnerType_createPlaylist_self db _ u .liked
              hL ⟨rfl, rfl⟩⟩
          · rw [hRother]
            exact hR
          · rw [countPlaylists_createPlaylist, if_pos ⟨rfl, rfl⟩, hc0]
            decide
          · rw [countPlaylists_createPlaylist, if_neg (by simp),
              max_eq_left hcr]
            omega
      | none =>
          have hc0r := (countPlaylists_eq_zero_iff db u .recently_played).mpr hR
          have hrun : createDefaultPlaylistsForUser db u
              = ((db.createPlaylist
                  { name := "Liked Songs", owner := u, songs := [],
                    totalDuration := 0, isDefault := true,
                    playlistType := .liked }).createPlaylist
                  { name := "Recently Played", owner := u, songs := [],
                    totalDuration := 0, isDefault := true,
                    playlistType := .recently_played }, .ok ()) := by
            unfold createDefaultPlaylistsForUser
            rw [if_pos hu]
            simp only [hL]
            rw [hRother, hR]
          rw [hrun]
          refine ⟨rfl, rfl, ?_, ?_, ?_, ?_⟩
          · exact ⟨_, findPlaylistByOwnerType_createPlaylist_of_some _ _ u
              .liked _ (findPlaylistByOwnerType_createPlaylist_self db _ u
                .liked hL ⟨rfl, rfl⟩)⟩
          · refine ⟨_, findPlaylistByOwnerType_createPlaylist_self _ _ u
              .recently_played ?_ ⟨rfl, rfl⟩⟩
            rw [hRother]
            exact hR
          · rw [countPlaylists_createPlaylist, if_neg (by simp),
              countPlaylists_createPlaylist, if_pos ⟨rfl, rfl⟩, hc0]
            decide
          · rw [countPlaylists_createPlaylist, if_pos ⟨rfl, rfl⟩,
              countPlaylists_createPlaylist, if_neg (by simp), hc0r]
            decide

/-- When both default playlists already exist, the initializer is a no-op. -/
theorem createDefaults_noop (db : DB) (u : UserId) (hu : u ∈ db.users)
    (hL : ∃ qL, db.findPlaylistByOwnerType u .liked = some qL)
    (hR : ∃ qR, db.findPlaylistByOwnerType u .recently_played = some qR) :
    createDefaultPlaylistsForUser db u = (db, .ok ()) := by
  rcases hL with ⟨qL, hL⟩
  rcases hR with ⟨qR, hR⟩
  unfold createDefaultPlaylistsForUser
  rw [if_pos hu]
  simp only [hL, hR]

/-- C7.  For an existing user whose per-type default-playlist counts are
consistent (at most one of each), running the registration-time initializer
twice leaves exactly one "liked" and exactly one "recently_played" playlist:
the first run tops each count up to one and the second run is a no-op. -/
theorem createDefaultPlaylists_idempotent (db : DB) (u : UserId)
    (hu : u ∈ db.users)
    (h1 : countPlaylists db u .liked ≤ 1)
    (h2 : countPlaylists db u .recently_played ≤ 1) :
    countPlaylists (createDefaultPlaylistsForUser db u).1 u .liked = 1 ∧
    countPlaylists (createDefaultPlaylistsForUser db u).1 u .recently_played = 1 ∧
    createDefaultPlaylistsForUser (createDefaultPlaylistsForUser db u).1 u
      = ((createDefaultPlaylistsForUser db u).1, .ok ()) := by
  obtain ⟨-, husers, hL, hR, hcl, hcr⟩ := createDefaults_post db u hu
  refine ⟨?_, ?_, ?_⟩
  · rw [hcl]
    exact max_eq_right h1
  · rw [hcr]
    exact max_eq_right h2
  · exact createDefaults_noop _ u (by rw [husers]; exact hu) hL hR

/-- Store for the C7 witness: user 7 exists and has no playlists yet. -/
def dbW7 : DB :=
  { users := [7], songs := [], playlists := [], nextPlaylistId := 0 }

/-- Witness for C7 at a fresh user. -/
theorem createDefaultPlaylists_idempotent_witness :
    (7 : UserId) ∈ dbW7.users ∧
    countPlaylists dbW7 7 .liked ≤ 1 ∧
    countPlaylists dbW7 7 .recently_played ≤ 1 ∧
    (countPlaylists (createDefaultPlaylistsForUser dbW7 7).1 7 .liked = 1 ∧
      countPlaylists (createDefaultPlaylistsForUser dbW7 7).1 7
        .recently_played = 1 ∧
      createDefaultPlaylistsForUser (createDefaultPlaylistsForUser dbW7 7).1 7
        = ((createDefaultPlaylistsForUser dbW7 7).1, .ok ())) :=
  ⟨by decide, by decide, by decide,
    createDefaultPlaylists_idempotent dbW7 7 (by decide) (by decide) (by decide)⟩

end MusicApp
